import Mathlib

/-!
# Verification of the SASL server transport (TSaslServerTransport.cpp)

A shallow embedding of `be/src/transport/TSaslServerTransport.cpp`:

* `setSaslServer` — guards against setting a server engine on a client-role
  transport (lines 61–67 of the source).
* `handleSaslStartMessage` — the first step of the server-side SASL
  negotiation: receive a frame, require status `START`, resolve the mechanism
  name against the server definition map, instantiate the engine and forward
  the payload to its first evaluation step (lines 69–100).
* `Factory.getTransport` — the per-transport session cache: look up the
  underlying transport, return the cached session or construct, open and
  insert a new one, all under one mutex (lines 102–116).

Byte strings are `List Nat`; transports are identified by `Nat` ids (the
source compares `shared_ptr` identities); `std::map` is an association list
with unique keys, with `find` / `operator[]` modelled by `mapFind` /
`mapInsert`.
-/

/-- Byte strings (payloads, names, diagnostics) as lists of byte values. -/
abbrev Bytes := List Nat

/-- The bytes of a string literal, used for the fixed diagnostic texts the
source builds with `stringstream`. -/
def strBytes (s : String) : Bytes := s.data.map Char.toNat

/-- Decimal rendering of a natural number, digit characters as bytes, as
`stringstream` prints an integral value. -/
def natDecBytes (n : Nat) : Bytes := (Nat.toDigits 10 n).map Char.toNat

/-- Reading a buffer as a NUL-terminated C string: the bytes strictly before
the first 0 byte.  This is what `reinterpret_cast<char*>` followed by a
`std::string` key construction does at line 82 of the source. -/
def cString (p : Bytes) : Bytes := p.takeWhile (fun b => b ≠ 0)

/-- `std::map::find`: association-list lookup (keys are unique in a
`std::map`, so first match is the match). -/
def mapFind {α β : Type} [DecidableEq α] : List (α × β) → α → Option β
  | [], _ => none
  | (k, v) :: rest, k0 => if k = k0 then some v else mapFind rest k0

/-- `std::map::operator[] =`: replace the value at a present key, otherwise
append the new binding. -/
def mapInsert {α β : Type} [DecidableEq α] : List (α × β) → α → β → List (α × β)
  | [], k0, v0 => [(k0, v0)]
  | (k, v) :: rest, k0, v0 =>
      if k = k0 then (k0, v0) :: rest else (k, v) :: mapInsert rest k0 v0

/-- `std::map::erase` by key. -/
def mapErase {α β : Type} [DecidableEq α] : List (α × β) → α → List (α × β)
  | [], _ => []
  | (k, v) :: rest, k0 => if k = k0 then rest else (k, v) :: mapErase rest k0

/-- The negotiation status tags of the wire protocol, with the wire values
START(1), OK(2), BAD(3), ERROR(4), COMPLETE(5) of the spec's frame table. -/
inductive NegotiationStatus : Type
  | TSASL_START
  | TSASL_OK
  | TSASL_BAD
  | TSASL_ERROR
  | TSASL_COMPLETE
deriving DecidableEq, Repr

/-- The integral value of a status tag, as printed by `ss << status`. -/
def NegotiationStatus.val : NegotiationStatus → Nat
  | .TSASL_START => 1
  | .TSASL_OK => 2
  | .TSASL_BAD => 3
  | .TSASL_ERROR => 4
  | .TSASL_COMPLETE => 5

/-- A handshake frame: status tag plus payload bytes (the length field of the
wire format is the payload's length). -/
structure Frame where
  status : NegotiationStatus
  payload : Bytes
deriving DecidableEq, Repr

/-- `TTransportException` type codes used by the source. -/
inductive TTransportExceptionType : Type
  | UNKNOWN
  | INTERNAL_ERROR
  | BAD_ARGS
deriving DecidableEq, Repr

/-- A thrown `TTransportException`: type code and message bytes. -/
structure TTransportException where
  ttype : TTransportExceptionType
  message : Bytes
deriving DecidableEq, Repr

/-- A registered server definition (`TSaslServerDefinition`): protocol,
server name, flags, properties and the callback array. Callbacks are opaque
descriptors. -/
structure TSaslServerDefinition where
  protocol_ : Bytes
  serverName_ : Bytes
  flags_ : Nat
  props_ : List (Bytes × Bytes)
  callbacks_ : List Nat
deriving DecidableEq, Repr

/-- The instantiated server-side authentication engine (`TSaslServer`),
recording the constructor arguments of line 93–96 of the source. -/
structure TSaslServer where
  protocol : Bytes
  serverName : Bytes
  realm : Bytes
  flags : Nat
  callbacks : List Nat
deriving DecidableEq, Repr

/-- The per-transport state relevant to `setSaslServer`: the role flag and
the currently held engine (`sasl_`). -/
structure TransportState where
  isClient_ : Bool
  sasl_ : Option TSaslServer
deriving DecidableEq, Repr

/-- `TSaslServerTransport::setSaslServer` (source lines 61–67): on a
client-role transport throw `INTERNAL_ERROR` and leave the state as it was;
on a server-role transport replace `sasl_` with the given engine. -/
def setSaslServer (st : TransportState) (saslServer : TSaslServer) :
    TransportState × Option TTransportException :=
  if st.isClient_ then
    (st, some ⟨.INTERNAL_ERROR, strBytes "Setting server in client transport"⟩)
  else
    ({ st with sasl_ := some saslServer }, none)

/-- The server definition map: mechanism name (bytes) to definition. -/
abbrev ServerDefinitionMap := List (Bytes × TSaslServerDefinition)

/-- Mechanism resolution at line 81–82 of the source: the received buffer is
read as a NUL-terminated C string and looked up in `serverDefinitionMap_`. -/
def resolveMechanism (serverDefinitionMap : ServerDefinitionMap) (message : Bytes) :
    Option TSaslServerDefinition :=
  mapFind serverDefinitionMap (cString message)

/-- Outcome of `handleSaslStartMessage`: either a failure that first sent a
diagnostic frame to the peer and then threw, or success with the engine that
was installed in `sasl_` and the bytes handed to its first
`evaluateChallengeOrResponse` call. -/
inductive HandleStartResult : Type
  | failed (sent : Frame) (exn : TTransportException)
  | started (engine : TSaslServer) (evalInput : Bytes) (evalInputLen : Nat)
deriving DecidableEq, Repr

/-- The engine installed by a `handleSaslStartMessage` outcome, if any. -/
def HandleStartResult.engineOf : HandleStartResult → Option TSaslServer
  | .failed _ _ => none
  | .started e _ _ => some e

/-- The diagnostic frame sent to the peer by a `handleSaslStartMessage`
outcome, if any. -/
def HandleStartResult.sentFrameOf : HandleStartResult → Option Frame
  | .failed f _ => some f
  | .started _ _ _ => none

/-- `TSaslServerTransport::handleSaslStartMessage` (source lines 69–100),
as a function of the received frame.  `receiveSaslMessage` yields the status
tag and the payload buffer (`message`, whose length is `resLength`).  If the
status is not `START`, send an `ERROR` frame with the diagnostic
`"Expecting START status, received <status>"` and throw.  Otherwise look the
payload up as a C string in `serverDefinitionMap_`; if absent, send a `BAD`
frame with `"Unsupported mechanism type <message>"` and throw `BAD_ARGS`;
if present, instantiate `TSaslServer` from the definition's protocol, server
name, an empty realm, flags and callbacks, and forward `message` with length
`resLength` to `evaluateChallengeOrResponse`. -/
def handleSaslStartMessage (serverDefinitionMap : ServerDefinitionMap)
    (status : NegotiationStatus) (message : Bytes) : HandleStartResult :=
  if status ≠ NegotiationStatus.TSASL_START then
    let diag := strBytes "Expecting START status, received " ++ natDecBytes status.val
    .failed ⟨.TSASL_ERROR, diag⟩ ⟨.UNKNOWN, diag⟩
  else
    match resolveMechanism serverDefinitionMap message with
    | none =>
        let diag := strBytes "Unsupported mechanism type " ++ cString message
        .failed ⟨.TSASL_BAD, diag⟩ ⟨.BAD_ARGS, diag⟩
    | some serverDefinition =>
        .started
          ⟨serverDefinition.protocol_, serverDefinition.serverName_, [],
            serverDefinition.flags_, serverDefinition.callbacks_⟩
          message message.length

/-- A constructed `TSaslServerTransport` session as the factory builds it:
bound to the shared server definition map and its underlying transport, with
a distinguishing instance id (object identity). -/
structure SessionObj where
  serverDefinitionMap_ : ServerDefinitionMap
  trans : Nat
  instanceId : Nat
deriving DecidableEq, Repr

/-- The factory's state: the shared server definition map, the transport →
session cache (`transportMap_`) and a counter providing fresh instance
identities. -/
structure FactoryState where
  serverDefinitionMap_ : ServerDefinitionMap
  transportMap_ : List (Nat × SessionObj)
  nextInstanceId : Nat
deriving DecidableEq, Repr

/-- Result of one `getTransport` call: the cached session was returned, a new
session was created (and opened), or `open()` threw and the exception
propagated. -/
inductive GetTransportResult : Type
  | cached (s : SessionObj)
  | created (s : SessionObj)
  | openFailed (e : TTransportException)
deriving DecidableEq, Repr

/-- `TSaslServerTransport::Factory::getTransport` (source lines 102–116):
look the underlying transport up in `transportMap_`; if present return the
cached session; otherwise construct a new session over the shared definition
map, call `open()` on it — which drives the handshake and may throw, modelled
by the `openOk` oracle — and only after a successful open insert it into the
cache.  The whole body runs under `transportMap_mutex_`. -/
def Factory.getTransport (openOk : Nat → Bool) (f : FactoryState) (trans : Nat) :
    FactoryState × GetTransportResult :=
  match mapFind f.transportMap_ trans with
  | some s => (f, .cached s)
  | none =>
      let retTransport : SessionObj := ⟨f.serverDefinitionMap_, trans, f.nextInstanceId⟩
      if openOk trans then
        ({ f with
            transportMap_ := mapInsert f.transportMap_ trans retTransport,
            nextInstanceId := f.nextInstanceId + 1 },
          .created retTransport)
      else
        (f, .openFailed ⟨.UNKNOWN, strBytes "open failed"⟩)

/-- Modelled from the spec: the eviction lifecycle hook of §4.4 — the factory
method that removes a closed underlying transport's cache entry is not part
of the visible source fragment (it lives outside this file, e.g. in the
header or caller), so it is modelled from the spec's words: "when the
underlying transport is closed, its cache entry must be removed". -/
def Factory.closeTransport (f : FactoryState) (trans : Nat) : FactoryState :=
  { f with transportMap_ := mapErase f.transportMap_ trans }

/-- The atomic steps of one `getTransport` call, used to state which of them
the `transportMap_mutex_` lock is held across. -/
inductive FactoryAction : Type
  | acquireLock
  | findInMap
  | constructSession
  | openSession
  | insertIntoMap
  | releaseLock
deriving DecidableEq, Repr, Fintype

/-- The step trace of one `getTransport` call (source lines 102–116): the
`boost::lock_guard` is acquired on entry (line 105) and released only when
the function returns, so every step — including `open()` on a cache miss —
happens between `acquireLock` and `releaseLock`. -/
def getTransportTrace (cacheHit : Bool) : List FactoryAction :=
  if cacheHit then
    [.acquireLock, .findInMap, .releaseLock]
  else
    [.acquireLock, .findInMap, .constructSession, .openSession, .insertIntoMap,
      .releaseLock]

/-- Whether the lock is held when action `a` runs in trace `t`: some
`acquireLock` precedes `a` with no `releaseLock` in between. -/
def lockHeldAt : List FactoryAction → FactoryAction → Bool → Bool
  | [], _, _ => false
  | FactoryAction.acquireLock :: rest, a, _ => lockHeldAt rest a true
  | FactoryAction.releaseLock :: rest, a, held =>
      if a = FactoryAction.releaseLock ∧ held then true else lockHeldAt rest a false
  | x :: rest, a, held =>
      if x = a ∧ held then true else lockHeldAt rest a held

/-- The lock is held across action `a` of the trace `t`. -/
def heldUnderLock (t : List FactoryAction) (a : FactoryAction) : Bool :=
  lockHeldAt t a false

/-- The spec's words for the bytes forwarded to the engine on `START`: "the
bytes of the START payload after the mechanism name, if any, or an empty
buffer".  Stated from the spec, to compare against what the source actually
hands to `evaluateChallengeOrResponse`. -/
def specForwardedBytes (p : Bytes) : Bytes := p.drop ((cString p).length + 1)

/-! ## Map lemmas -/

theorem mapFind_mapInsert_self {α β : Type} [DecidableEq α] (l : List (α × β)) (k : α) (v : β) :
    mapFind (mapInsert l k v) k = some v := by
  induction l with
  | nil => simp [mapInsert, mapFind]
  | cons kv rest ih =>
      obtain ⟨k1, v1⟩ := kv
      by_cases h : k1 = k
      · simp [mapInsert, h, mapFind]
      · simp [mapInsert, h, mapFind, ih]

theorem mapFind_eq_none_of_not_mem {α β : Type} [DecidableEq α] (l : List (α × β)) (k : α)
    (h : k ∉ l.map Prod.fst) : mapFind l k = none := by
  induction l with
  | nil => rfl
  | cons kv rest ih =>
      obtain ⟨k1, v1⟩ := kv
      simp only [List.map_cons, List.mem_cons] at h
      push_neg at h
      have h1 : k1 ≠ k := fun e => h.1 e.symm
      simp [mapFind, h1, ih h.2]

theorem mapFind_mapErase_self {α β : Type} [DecidableEq α] (l : List (α × β)) (k : α)
    (h : (l.map Prod.fst).Nodup) : mapFind (mapErase l k) k = none := by
  induction l with
  | nil => rfl
  | cons kv rest ih =>
      obtain ⟨k1, v1⟩ := kv
      simp only [List.map_cons, List.nodup_cons] at h
      by_cases hk : k1 = k
      · subst hk
        simpa [mapErase] using mapFind_eq_none_of_not_mem rest k1 h.1
      · simp [mapErase, hk, mapFind, ih h.2]

theorem resolveMechanism_congr (m : ServerDefinitionMap) (p q : Bytes)
    (h : cString p = cString q) : resolveMechanism m p = resolveMechanism m q := by
  simp [resolveMechanism, h]

/-! ## Claims -/

/-- Claim C10: `setSaslServer` on a client-role transport throws an
`INTERNAL_ERROR` transport exception and leaves the engine unchanged; on a
server-role transport it replaces the engine with the given one. -/
theorem setSaslServer_role (st : TransportState) (saslServer : TSaslServer) :
    (st.isClient_ = true →
        setSaslServer st saslServer =
          (st, some ⟨.INTERNAL_ERROR, strBytes "Setting server in client transport"⟩)) ∧
    (st.isClient_ = false →
        setSaslServer st saslServer = ({ st with sasl_ := some saslServer }, none)) := by
  constructor
  · intro h
    simp [setSaslServer, h]
  · intro h
    simp [setSaslServer, h]

/-- Witness for C10 at concrete client- and server-role states. -/
theorem setSaslServer_role_witness :
    setSaslServer ⟨true, none⟩ ⟨[], [], [], 0, []⟩ =
      (⟨true, none⟩, some ⟨.INTERNAL_ERROR, strBytes "Setting server in client transport"⟩) ∧
    setSaslServer ⟨false, none⟩ ⟨[], [], [], 0, []⟩ =
      (⟨false, some ⟨[], [], [], 0, []⟩⟩, none) :=
  ⟨(setSaslServer_role ⟨true, none⟩ ⟨[], [], [], 0, []⟩).1 rfl,
   (setSaslServer_role ⟨false, none⟩ ⟨[], [], [], 0, []⟩).2 rfl⟩

/-- Claim C1: a first frame with status `START` naming a mechanism absent
from the registry makes `handleSaslStartMessage` send a `BAD` frame with the
diagnostic and throw `BAD_ARGS`, with no engine instantiated; moreover, in
every run the engine is only ever set after the mechanism name has been
resolved against the registry. -/
theorem handleSaslStart_unsupported (m : ServerDefinitionMap) (p : Bytes)
    (h : resolveMechanism m p = none) :
    (handleSaslStartMessage m .TSASL_START p =
        .failed ⟨.TSASL_BAD, strBytes "Unsupported mechanism type " ++ cString p⟩
          ⟨.BAD_ARGS, strBytes "Unsupported mechanism type " ++ cString p⟩ ∧
      (handleSaslStartMessage m .TSASL_START p).engineOf = none) ∧
    (∀ (s : NegotiationStatus) (q : Bytes) (e : TSaslServer),
        (handleSaslStartMessage m s q).engineOf = some e →
          ∃ d, resolveMechanism m q = some d) := by
  refine ⟨⟨?_, ?_⟩, ?_⟩
  · simp [handleSaslStartMessage, h]
  · simp [handleSaslStartMessage, h, HandleStartResult.engineOf]
  · intro s q e he
    by_cases hs : s = NegotiationStatus.TSASL_START
    · subst hs
      cases hr : resolveMechanism m q with
      | none => simp [handleSaslStartMessage, hr, HandleStartResult.engineOf] at he
      | some d => exact ⟨d, rfl⟩
    · simp [handleSaslStartMessage, hs, HandleStartResult.engineOf] at he

/-- Witness for C1 at the empty registry and the mechanism name PLAIN. -/
theorem handleSaslStart_unsupported_witness :
    handleSaslStartMessage [] .TSASL_START (strBytes "PLAIN") =
      .failed
        ⟨.TSASL_BAD, strBytes "Unsupported mechanism type " ++ cString (strBytes "PLAIN")⟩
        ⟨.BAD_ARGS, strBytes "Unsupported mechanism type " ++ cString (strBytes "PLAIN")⟩ :=
  ((handleSaslStart_unsupported [] (strBytes "PLAIN") rfl).1).1

/-- Claim C2: a first frame whose status is not `START` makes
`handleSaslStartMessage` send an `ERROR` frame carrying a human-readable
diagnostic and throw, without consulting the registry (the outcome is the
same for every registry) and without instantiating an engine. -/
theorem handleSaslStart_not_start (m : ServerDefinitionMap)
    (s : NegotiationStatus) (p : Bytes) (h : s ≠ NegotiationStatus.TSASL_START) :
    (handleSaslStartMessage m s p =
        .failed
          ⟨.TSASL_ERROR, strBytes "Expecting START status, received " ++ natDecBytes s.val⟩
          ⟨.UNKNOWN, strBytes "Expecting START status, received " ++ natDecBytes s.val⟩) ∧
    (∀ m2 : ServerDefinitionMap, handleSaslStartMessage m2 s p = handleSaslStartMessage m s p) ∧
    (handleSaslStartMessage m s p).engineOf = none := by
  refine ⟨?_, ?_, ?_⟩
  · simp [handleSaslStartMessage, h]
  · intro m2
    simp [handleSaslStartMessage, h]
  · simp [handleSaslStartMessage, h, HandleStartResult.engineOf]

/-- Witness for C2 at status `OK` on the empty payload. -/
theorem handleSaslStart_not_start_witness :
    handleSaslStartMessage [] .TSASL_OK [] =
      .failed
        ⟨.TSASL_ERROR,
          strBytes "Expecting START status, received " ++ natDecBytes NegotiationStatus.TSASL_OK.val⟩
        ⟨.UNKNOWN,
          strBytes "Expecting START status, received " ++ natDecBytes NegotiationStatus.TSASL_OK.val⟩ :=
  (handleSaslStart_not_start [] .TSASL_OK [] (by decide)).1

/-- Counterexample for C3: on the registered mechanism PLAIN and the START
payload `"PLAIN" ++ [0] ++ "tok"`, the engine's first evaluation step
receives the entire 9-byte payload (mechanism name and NUL included), not
the bytes after the mechanism name (`"tok"`), and not an empty buffer. -/
theorem handleSaslStart_forwards_whole_payload :
    handleSaslStartMessage [([80, 76, 65, 73, 78], ⟨[120], [115], 7, [], [1]⟩)]
        .TSASL_START [80, 76, 65, 73, 78, 0, 116, 111, 107] =
      .started ⟨[120], [115], [], 7, [1]⟩ [80, 76, 65, 73, 78, 0, 116, 111, 107] 9 ∧
    specForwardedBytes [80, 76, 65, 73, 78, 0, 116, 111, 107] = [116, 111, 107] ∧
    ([80, 76, 65, 73, 78, 0, 116, 111, 107] : Bytes) ≠
      specForwardedBytes [80, 76, 65, 73, 78, 0, 116, 111, 107] ∧
    ([80, 76, 65, 73, 78, 0, 116, 111, 107] : Bytes) ≠ [] := by
  refine ⟨?_, by decide, by decide, by decide⟩
  decide

/-- Claim C3 (amended): on a first frame with status `START` naming a
registered mechanism, `handleSaslStartMessage` instantiates the engine from
the resolved definition's protocol, server name, flags and callbacks (with an
empty realm) and forwards the ENTIRE START payload, with its full length, to
the engine's first evaluation step. -/
theorem handleSaslStart_started (m : ServerDefinitionMap) (p : Bytes)
    (d : TSaslServerDefinition) (h : resolveMechanism m p = some d) :
    handleSaslStartMessage m .TSASL_START p =
      .started ⟨d.protocol_, d.serverName_, [], d.flags_, d.callbacks_⟩ p p.length := by
  simp [handleSaslStartMessage, h]

/-- Witness for the amended C3 at a concrete one-entry registry. -/
theorem handleSaslStart_started_witness :
    handleSaslStartMessage [([80, 76, 65, 73, 78], ⟨[120], [115], 7, [], [1]⟩)]
        .TSASL_START [80, 76, 65, 73, 78] =
      .started ⟨[120], [115], [], 7, [1]⟩ [80, 76, 65, 73, 78] 5 :=
  handleSaslStart_started [([80, 76, 65, 73, 78], ⟨[120], [115], 7, [], [1]⟩)]
    [80, 76, 65, 73, 78] ⟨[120], [115], 7, [], [1]⟩ (by decide)

/-- Counterexample for C4: in `getTransport` the `boost::lock_guard` spans
the whole function body, so on a cache miss the mutex is held across session
construction, `open()` (the full negotiation) and the cache insert — not only
across the lookup-or-insert step. -/
theorem getTransport_lock_covers_open :
    heldUnderLock (getTransportTrace false) .openSession = true ∧
    heldUnderLock (getTransportTrace false) .constructSession = true ∧
    heldUnderLock (getTransportTrace false) .insertIntoMap = true := by
  decide

/-- Claim C4 (amended): the factory mutex is held across every step of a
`getTransport` call — lookup, construction, `open()` and insert alike — so
concurrent calls are serialized against each other even for distinct
underlying transports; at most one session per transport still follows, the
insert being under the same lock as the lookup. -/
theorem getTransport_lock_spans_body :
    ∀ (cacheHit : Bool) (a : FactoryAction), a ∈ getTransportTrace cacheHit →
      a ≠ FactoryAction.acquireLock → heldUnderLock (getTransportTrace cacheHit) a = true := by
  decide

/-- Witness for the amended C4 at the cache-miss trace and the map lookup. -/
theorem getTransport_lock_spans_body_witness :
    heldUnderLock (getTransportTrace false) .findInMap = true :=
  getTransport_lock_spans_body false .findInMap (by decide) (by decide)

/-- Claim C5: `getTransport` returns the cached session when one exists —
the identical instance, independently of the open/handshake behavior, so the
handshake is not re-run — and otherwise constructs a new session bound to
the shared server definition map, opens it, inserts it into the cache and
returns it, after which the cache resolves that transport to it. -/
theorem getTransport_cache (openOk : Nat → Bool) (f : FactoryState) (t : Nat) :
    (∀ s, mapFind f.transportMap_ t = some s →
        ∀ openOk2 : Nat → Bool, Factory.getTransport openOk2 f t = (f, .cached s)) ∧
    (mapFind f.transportMap_ t = none → openOk t = true →
        Factory.getTransport openOk f t =
          ({ serverDefinitionMap_ := f.serverDefinitionMap_,
             transportMap_ :=
               mapInsert f.transportMap_ t ⟨f.serverDefinitionMap_, t, f.nextInstanceId⟩,
             nextInstanceId := f.nextInstanceId + 1 },
            .created ⟨f.serverDefinitionMap_, t, f.nextInstanceId⟩) ∧
        mapFind (Factory.getTransport openOk f t).1.transportMap_ t =
          some ⟨f.serverDefinitionMap_, t, f.nextInstanceId⟩) := by
  constructor
  · intro s hs openOk2
    simp [Factory.getTransport, hs]
  · intro hmiss hopen
    refine ⟨by simp [Factory.getTransport, hmiss, hopen], ?_⟩
    simp [Factory.getTransport, hmiss, hopen, mapFind_mapInsert_self]

/-- Witness for C5: a hit on a one-entry cache returns the cached session;
a miss on the empty cache creates, opens and caches a fresh session. -/
theorem getTransport_cache_witness :
    Factory.getTransport (fun _ => true) ⟨[], [(5, ⟨[], 5, 0⟩)], 1⟩ 5 =
      (⟨[], [(5, ⟨[], 5, 0⟩)], 1⟩, .cached ⟨[], 5, 0⟩) ∧
    Factory.getTransport (fun _ => true) ⟨[], [], 0⟩ 7 =
      (⟨[], [(7, ⟨[], 7, 0⟩)], 1⟩, .created ⟨[], 7, 0⟩) :=
  ⟨(getTransport_cache (fun _ => true) ⟨[], [(5, ⟨[], 5, 0⟩)], 1⟩ 5).1 ⟨[], 5, 0⟩ rfl
      (fun _ => true),
   ((getTransport_cache (fun _ => true) ⟨[], [], 0⟩ 7).2 rfl rfl).1⟩

/-- Claim C6: the close-time eviction hook removes the closed transport's
entry from the session cache (keys of the cache are unique, as in
`std::map`), so the cache no longer maps that transport to a session. -/
theorem closeTransport_evicts (f : FactoryState) (t : Nat)
    (h : (f.transportMap_.map Prod.fst).Nodup) :
    mapFind (Factory.closeTransport f t).transportMap_ t = none :=
  mapFind_mapErase_self f.transportMap_ t h

/-- Witness for C6 at a one-entry cache. -/
theorem closeTransport_evicts_witness :
    mapFind (Factory.closeTransport ⟨[], [(3, ⟨[], 3, 0⟩)], 1⟩ 3).transportMap_ 3 = none :=
  closeTransport_evicts ⟨[], [(3, ⟨[], 3, 0⟩)], 1⟩ 3 (by decide)

/-- Claim C7: every diagnostic frame `handleSaslStartMessage` sends is a
function only of the received status tag and of the mechanism name (the
payload bytes before the first NUL): it is a fixed diagnostic string plus at
most the printed status value or the mechanism name, and the sent frame is
unchanged under any change of payload that preserves the mechanism name —
in particular bytes after the first NUL (where credentials would sit) never
reach the diagnostic. -/
theorem sentDiag_only_status_and_mechanism (m : ServerDefinitionMap)
    (s : NegotiationStatus) (p : Bytes) :
    (∀ fr, (handleSaslStartMessage m s p).sentFrameOf = some fr →
        (s ≠ NegotiationStatus.TSASL_START ∧
          fr = ⟨.TSASL_ERROR,
                 strBytes "Expecting START status, received " ++ natDecBytes s.val⟩) ∨
        (s = NegotiationStatus.TSASL_START ∧
          fr = ⟨.TSASL_BAD, strBytes "Unsupported mechanism type " ++ cString p⟩)) ∧
    (∀ q : Bytes, cString q = cString p →
        (handleSaslStartMessage m s q).sentFrameOf =
          (handleSaslStartMessage m s p).sentFrameOf) := by
  constructor
  · intro fr hfr
    by_cases hs : s = NegotiationStatus.TSASL_START
    · subst hs
      cases hr : resolveMechanism m p with
      | none =>
          simp [handleSaslStartMessage, hr, HandleStartResult.sentFrameOf] at hfr
          exact Or.inr ⟨rfl, hfr.symm⟩
      | some d =>
          simp [handleSaslStartMessage, hr, HandleStartResult.sentFrameOf] at hfr
    · simp [handleSaslStartMessage, hs, HandleStartResult.sentFrameOf] at hfr
      exact Or.inl ⟨hs, hfr.symm⟩
  · intro q hq
    by_cases hs : s = NegotiationStatus.TSASL_START
    · subst hs
      have hres : resolveMechanism m q = resolveMechanism m p :=
        resolveMechanism_congr m q p hq
      cases hr : resolveMechanism m p with
      | none =>
          simp [handleSaslStartMessage, hr, hres.trans hr, hq, HandleStartResult.sentFrameOf]
      | some d =>
          simp [handleSaslStartMessage, hr, hres.trans hr, HandleStartResult.sentFrameOf]
    · simp [handleSaslStartMessage, hs, HandleStartResult.sentFrameOf]

/-- Witness for C7: the BAD diagnostic for an unknown mechanism on the empty
registry names the mechanism only, and a payload differing after the NUL
produces the identical frame. -/
theorem sentDiag_only_status_and_mechanism_witness :
    ((handleSaslStartMessage [] .TSASL_START [77, 0, 42]).sentFrameOf =
        (handleSaslStartMessage [] .TSASL_START [77, 0, 9, 9]).sentFrameOf) ∧
    ((handleSaslStartMessage [] .TSASL_START [77, 0, 9, 9]).sentFrameOf =
        some ⟨.TSASL_BAD, strBytes "Unsupported mechanism type " ++ cString [77, 0, 9, 9]⟩) :=
  ⟨(sentDiag_only_status_and_mechanism [] .TSASL_START [77, 0, 9, 9]).2 [77, 0, 42] rfl,
   by decide⟩

/-- Claim C8: mechanism resolution reads the START payload as a NUL-terminated
C string, so it depends only on the bytes before the first NUL: payloads
agreeing there resolve to the same mechanism definition, and the engine
instantiated by `handleSaslStartMessage` (built from the definition alone) is
the same. -/
theorem resolveMechanism_only_cstring (m : ServerDefinitionMap) (p q : Bytes)
    (h : cString p = cString q) :
    resolveMechanism m p = resolveMechanism m q ∧
    (handleSaslStartMessage m .TSASL_START p).engineOf =
      (handleSaslStartMessage m .TSASL_START q).engineOf := by
  have hres := resolveMechanism_congr m p q h
  refine ⟨hres, ?_⟩
  cases hr : resolveMechanism m q with
  | none =>
      simp [handleSaslStartMessage, hr, hres.trans hr, HandleStartResult.engineOf]
  | some d =>
      simp [handleSaslStartMessage, hr, hres.trans hr, HandleStartResult.engineOf]

/-- Witness for C8: two payloads agreeing before the first NUL resolve the
same way. -/
theorem resolveMechanism_only_cstring_witness :
    resolveMechanism [([80], ⟨[], [], 0, [], []⟩)] [80, 0, 1] =
      resolveMechanism [([80], ⟨[], [], 0, [], []⟩)] [80, 0, 2, 3] :=
  (resolveMechanism_only_cstring [([80], ⟨[], [], 0, [], []⟩)] [80, 0, 1] [80, 0, 2, 3]
      (by decide)).1

/-- Claim C9: when the transport is not cached and `open()` throws while
driving the new session's handshake, `getTransport` propagates the failure
and leaves the factory state — in particular the cache mapping — unchanged:
no entry for that transport is inserted. -/
theorem getTransport_openFail_no_insert (openOk : Nat → Bool) (f : FactoryState) (t : Nat)
    (hmiss : mapFind f.transportMap_ t = none) (hfail : openOk t = false) :
    Factory.getTransport openOk f t =
      (f, .openFailed ⟨.UNKNOWN, strBytes "open failed"⟩) := by
  simp [Factory.getTransport, hmiss, hfail]

/-- Witness for C9 on the empty cache with a failing open. -/
theorem getTransport_openFail_no_insert_witness :
    Factory.getTransport (fun _ => false) ⟨[], [], 0⟩ 4 =
      (⟨[], [], 0⟩, .openFailed ⟨.UNKNOWN, strBytes "open failed"⟩) :=
  getTransport_openFail_no_insert (fun _ => false) ⟨[], [], 0⟩ 4 rfl rfl
